import Mathlib

/-!
Verification development for the srilanka-holidays service (`src/main.py`).

The program is a read-only holiday lookup API.  We shallowly embed the five
endpoint handlers (`api_coverage_year`, `check_holiday`, `holiday_info`,
`holidays_list`, `get_holiday_info`, `holidays_in_year`) as pure Lean
functions.  The per-year JSON files under `json/` are abstracted as a store
`Nat → Option (List HolidayRecord)` (a missing file is `none`; an existing
file with records is `some data`).  Python `date` validity, comparison and
the `strftime` codes `%A`, `%B`, `%W` used by the code are embedded from
their documented semantics (proleptic Gregorian calendar; `%W` weeks start
on Monday and days before the first Monday of the year are week `00`).
Response dictionaries are embedded as a small JSON value type, preserving
field names and order as written in the source.
-/

namespace Holidays

/-- A calendar date, the embedding of Python's `datetime.date` value. -/
structure Date where
  year : Nat
  month : Nat
  day : Nat
deriving DecidableEq, Repr

/-- Gregorian leap-year rule, as used by Python's `datetime`. -/
def isLeapYear (y : Nat) : Bool :=
  (y % 4 == 0 && y % 100 != 0) || (y % 400 == 0)

/-- Number of days in a month of a given year (Gregorian). -/
def daysInMonth (y m : Nat) : Nat :=
  if m == 2 then (if isLeapYear y then 29 else 28)
  else if m == 4 || m == 6 || m == 9 || m == 11 then 30
  else 31

/-- Whether `date(y, m, d)` succeeds in Python: the components form a real
calendar date.  (Python also requires `1 ≤ y ≤ 9999`; the HTTP layer already
restricts `y` to 2000–3000, so on the embedded domain only the calendar
check matters.) -/
def isValidDate (y m d : Nat) : Bool :=
  1 ≤ m && m ≤ 12 && 1 ≤ d && d ≤ daysInMonth y m

/-- Python `date` ordering (`<=`): lexicographic on (year, month, day). -/
def Date.leb (a b : Date) : Bool :=
  a.year < b.year ||
    (a.year == b.year &&
      (a.month < b.month || (a.month == b.month && a.day ≤ b.day)))

/-- Days in the months of year `y` strictly before month `m`. -/
def daysBeforeMonth (y m : Nat) : Nat :=
  (List.range (m - 1)).foldl (fun acc i => acc + daysInMonth y (i + 1)) 0

/-- Days in all years strictly before year `y` (proleptic Gregorian),
as in CPython's `_days_before_year`. -/
def daysBeforeYear (y : Nat) : Nat :=
  365 * (y - 1) + (y - 1) / 4 - (y - 1) / 100 + (y - 1) / 400

/-- Ordinal day number of a date (1-based), as Python's `date.toordinal`
(ordinal 1 is January 1 of year 1, a Monday). -/
def toOrdinal (d : Date) : Nat :=
  daysBeforeYear d.year + daysBeforeMonth d.year d.month + d.day

/-- Day-of-year of a date (1-based). -/
def dayOfYear (d : Date) : Nat :=
  daysBeforeMonth d.year d.month + d.day

/-- Weekday with Monday = 0 … Sunday = 6, as Python's `date.weekday()`. -/
def mondayWeekday (d : Date) : Nat :=
  (toOrdinal d + 6) % 7

/-- The `%W` week number: weeks start on Monday, and all days of the year
before the first Monday (a Sunday among them) are week 0. -/
def weekW (d : Date) : Nat :=
  (dayOfYear d + 6 - mondayWeekday d) / 7

/-- English weekday names, Monday first, for `strftime("%A")`. -/
def weekdayNames : List String :=
  ["Monday", "Tuesday", "Wednesday", "Thursday", "Friday", "Saturday", "Sunday"]

/-- Full weekday name, as `strftime` renders `%A`. -/
def weekdayName (d : Date) : String :=
  weekdayNames.getD (mondayWeekday d) ""

/-- English month names for `strftime("%B")`. -/
def monthNames : List String :=
  ["January", "February", "March", "April", "May", "June", "July",
   "August", "September", "October", "November", "December"]

/-- Full month name, as `strftime` renders `%B`. -/
def monthName (m : Nat) : String :=
  monthNames.getD (m - 1) ""

/-- Zero-padded two-digit rendering, as `strftime` uses for `%W`, `%m`, `%d`. -/
def fmt2 (n : Nat) : String :=
  if n < 10 then "0" ++ toString n else toString n

/-- Zero-padded four-digit year rendering. -/
def fmt4 (n : Nat) : String :=
  if n < 10 then "000" ++ toString n
  else if n < 100 then "00" ++ toString n
  else if n < 1000 then "0" ++ toString n
  else toString n

/-- ISO `YYYY-MM-DD` rendering of a date, as in the dataset's date strings
and FastAPI's serialization of a `date` value. -/
def dateStr (d : Date) : String :=
  fmt4 d.year ++ "-" ++ fmt2 d.month ++ "-" ++ fmt2 d.day

/-- One holiday record of a year's dataset.  In the backing JSON, `start`
and `«end»` are `YYYY-MM-DD` strings that the code parses with
`datetime.strptime`; we store them parsed. -/
structure HolidayRecord where
  uid : String
  summary : String
  start : Date
  «end» : Date
  categories : List String
deriving DecidableEq, Repr

/-- The dataset store: `json/{year}.json` abstracted to a lookup by year.
`none` embeds "file does not exist". -/
def Store : Type := Nat → Option (List HolidayRecord)

/-- JSON values, for the response bodies the handlers build. -/
inductive Json where
  | null : Json
  | bool (b : Bool) : Json
  | nat (n : Nat) : Json
  | str (s : String) : Json
  | arr (xs : List Json) : Json
  | obj (fields : List (String × Json)) : Json

/-- Field lookup in a JSON object (Python `result["key"]`). -/
def Json.getField : Json → String → Option Json
  | Json.obj fs, k => (fs.find? (fun p => p.1 == k)).map Prod.snd
  | _, _ => none

/-- Truthiness of a looked-up JSON boolean field
(Python `if result["is_holiday"]:`). -/
def jsonFieldTrue : Option Json → Bool
  | some (Json.bool b) => b
  | _ => false

/-- A `date` value serialized inside a response: a date renders as its ISO
string, `None` as JSON null. -/
def optDateJson : Option Date → Json
  | none => Json.null
  | some d => Json.str (dateStr d)

/-- The range test of `get_holiday_info`'s loop:
`start_date <= date_to_check <= end_date`. -/
def containsDate (h : HolidayRecord) (d : Date) : Bool :=
  h.start.leb d && d.leb h.«end»

/-- The detailed holiday body built by `get_holiday_info` on a match. -/
def holidayDetail (d : Date) (h : HolidayRecord) : Json :=
  Json.obj [
    ("day", Json.str (weekdayName d)),
    ("week", Json.str (fmt2 (weekW d))),
    ("month", Json.str (monthName d.month)),
    ("is_holiday", Json.bool true),
    ("id", Json.str h.uid),
    ("holiday", Json.str h.summary),
    ("categories", Json.arr (h.categories.map Json.str)),
    ("holiday_start", Json.str (dateStr h.start)),
    ("holiday_end", Json.str (dateStr h.«end»))
  ]

/-- Embedding of `get_holiday_info(year, month, day)`: returns the triple
`(date_provided, status_code, result)`. -/
def get_holiday_info (store : Store) (year month day : Nat) :
    Option Date × Nat × Json :=
  if isValidDate year month day then
    let d : Date := ⟨year, month, day⟩
    match store year with
    | none =>
        (some d, 404, Json.obj [("error", Json.str "requested year not available")])
    | some holiday_data =>
        match holiday_data.find? (fun h => containsDate h d) with
        | some h => (some d, 200, holidayDetail d h)
        | none => (some d, 200, Json.obj [("is_holiday", Json.bool false)])
  else
    (none, 400, Json.obj [("error", Json.str "invalid date")])

/-- Embedding of the `/api/v1/check_holiday` handler (strict mode):
returns `(status_code, body)`. -/
def check_holiday (store : Store) (year month day : Nat) : Nat × Json :=
  let r := get_holiday_info store year month day
  let date_provided := r.1
  let status_code := r.2.1
  let result := r.2.2
  if status_code ≠ 200 then
    (status_code, Json.obj [("response", result)])
  else if jsonFieldTrue (result.getField "is_holiday") then
    (status_code, result)
  else
    (status_code, Json.obj [("date", optDateJson date_provided),
                            ("response", Json.bool false)])

/-- Embedding of the `/api/v1/holiday_info` handler (verbose mode):
returns `(status_code, body)`. -/
def holiday_info (store : Store) (year month day : Nat) : Nat × Json :=
  let r := get_holiday_info store year month day
  (r.2.1, Json.obj [("date", optDateJson r.1), ("response", r.2.2)])

/-- A record rendered as it is stored in the dataset JSON (the month
listing returns the parsed records verbatim). -/
def recordJson (h : HolidayRecord) : Json :=
  Json.obj [
    ("uid", Json.str h.uid),
    ("summary", Json.str h.summary),
    ("start", Json.str (dateStr h.start)),
    ("end", Json.str (dateStr h.«end»)),
    ("categories", Json.arr (h.categories.map Json.str))
  ]

/-- Embedding of the `/api/v1/holidays?year=&month=` handler
(`holidays_list`): returns `(status_code, body)`.  The raised
`HTTPException(404, detail)` is embedded as FastAPI renders it:
status 404 with body `{"detail": …}`. -/
def holidays_list (store : Store) (year month : Nat) : Nat × Json :=
  match store year with
  | none =>
      (404, Json.obj [("detail", Json.str "Holiday data not available for the year")])
  | some holiday_data =>
      let holidays_in_month :=
        holiday_data.filter (fun h => h.start.month == month)
      if holidays_in_month.isEmpty then
        (200, Json.obj [("response", Json.str "No holidays found for this month")])
      else
        (200, Json.obj [("holidays", Json.arr (holidays_in_month.map recordJson))])

/-- The per-record shape built by `holidays_in_year`: `uid`, `start`,
`end`, `categories` copied, `summary` renamed to `holiday`. -/
def yearItemJson (h : HolidayRecord) : Json :=
  Json.obj [
    ("uid", Json.str h.uid),
    ("holiday", Json.str h.summary),
    ("start", Json.str (dateStr h.start)),
    ("end", Json.str (dateStr h.«end»)),
    ("categories", Json.arr (h.categories.map Json.str))
  ]

/-- Embedding of the `/api/v1/holidays/{year}` handler
(`holidays_in_year`): returns `(status_code, body)`.  Both return paths
leave the status at its default 200. -/
def holidays_in_year (store : Store) (year : Nat) : Nat × Json :=
  match store year with
  | none =>
      (200, Json.obj [("year", Json.nat year),
                      ("response", Json.str "Data not available for this year.")])
  | some holiday_data =>
      (200, Json.obj [("year", Json.nat year),
                      ("holidays", Json.arr (holiday_data.map yearItemJson))])

/-- Embedding of the `/api/v1/coverage/{year}` handler
(`api_coverage_year`): always status 200. -/
def api_coverage_year (store : Store) (year : Nat) : Json :=
  match store year with
  | some _ => Json.obj [("year", Json.nat year), ("coverage", Json.str "ok")]
  | none => Json.obj [("year", Json.nat year), ("coverage", Json.str "data not available")]

/-! ### Sample data used by the witnesses -/

/-- A one-day/two-day holiday record used as concrete test data. -/
def rec1 : HolidayRecord :=
  ⟨"h1", "New Year", ⟨2025, 1, 1⟩, ⟨2025, 1, 2⟩, ["public"]⟩

/-- A second record whose range overlaps `rec1`'s. -/
def rec2 : HolidayRecord :=
  ⟨"h2", "Overlap Festival", ⟨2025, 1, 1⟩, ⟨2025, 1, 5⟩, ["bank"]⟩

/-- A concrete store: year 2025 has a two-record dataset, everything else
is missing. -/
def sampleStore : Store :=
  fun y => if y = 2025 then some [rec1, rec2] else none

/-! ### Helper lemmas about the resolution core -/

/-- On an invalid calendar date, `get_holiday_info` short-circuits to the
400 outcome. -/
theorem get_info_invalid (store : Store) (y m d : Nat)
    (hv : isValidDate y m d = false) :
    get_holiday_info store y m d
      = (none, 400, Json.obj [("error", Json.str "invalid date")]) := by
  simp [get_holiday_info, hv]

/-- On a valid date in a year with no dataset, `get_holiday_info` returns
the 404 outcome. -/
theorem get_info_missing (store : Store) (y m d : Nat)
    (hv : isValidDate y m d = true) (hn : store y = none) :
    get_holiday_info store y m d
      = (some ⟨y, m, d⟩, 404,
         Json.obj [("error", Json.str "requested year not available")]) := by
  simp [get_holiday_info, hv, hn]

/-- A linear scan returns the first element satisfying the predicate. -/
theorem find_first {α : Type} (p : α → Bool) (pre : List α) (x : α)
    (post : List α) (hpre : ∀ a ∈ pre, p a = false) (hx : p x = true) :
    (pre ++ x :: post).find? p = some x := by
  induction pre with
  | nil => simp [List.find?, hx]
  | cons a l ih =>
      have ha : p a = false := hpre a (List.mem_cons_self a l)
      simp only [List.cons_append, List.find?]
      rw [ha]
      exact ih (fun b hb => hpre b (List.mem_cons_of_mem a hb))

/-- On a valid date in a covered year, the first record (in dataset order)
whose inclusive range contains the date produces the holiday outcome. -/
theorem get_info_match (store : Store) (y m d : Nat)
    (hv : isValidDate y m d = true) (pre : List HolidayRecord)
    (h : HolidayRecord) (post : List HolidayRecord)
    (hs : store y = some (pre ++ h :: post))
    (hpre : ∀ h' ∈ pre, containsDate h' ⟨y, m, d⟩ = false)
    (hh : containsDate h ⟨y, m, d⟩ = true) :
    get_holiday_info store y m d
      = (some ⟨y, m, d⟩, 200, holidayDetail ⟨y, m, d⟩ h) := by
  simp [get_holiday_info, hv, hs,
        find_first (fun h' => containsDate h' ⟨y, m, d⟩) pre h post hpre hh]

/-- On a valid date in a covered year where no record's range contains the
date, the outcome is the not-a-holiday body with status 200. -/
theorem get_info_nomatch (store : Store) (y m d : Nat)
    (hv : isValidDate y m d = true) (data : List HolidayRecord)
    (hs : store y = some data)
    (hno : ∀ h ∈ data, containsDate h ⟨y, m, d⟩ = false) :
    get_holiday_info store y m d
      = (some ⟨y, m, d⟩, 200, Json.obj [("is_holiday", Json.bool false)]) := by
  have hfind : data.find? (fun h => containsDate h ⟨y, m, d⟩) = none := by
    rw [List.find?_eq_none]
    intro a ha
    simp [hno a ha]
  simp [get_holiday_info, hv, hs, hfind]

/-- Status 404 is produced exactly for a valid date in an uncovered year. -/
theorem get_info_status_404 (store : Store) (y m d : Nat) :
    (get_holiday_info store y m d).2.1 = 404
      ↔ (isValidDate y m d = true ∧ store y = none) := by
  by_cases hv : isValidDate y m d = true
  · cases hst : store y with
    | none => simp [get_info_missing store y m d hv hst, hv, hst]
    | some data =>
        cases hf : data.find? (fun h => containsDate h ⟨y, m, d⟩) with
        | none => simp [get_holiday_info, hv, hst, hf]
        | some h => simp [get_holiday_info, hv, hst, hf]
  · have hv' : isValidDate y m d = false := by
      cases hvv : isValidDate y m d
      · rfl
      · exact absurd hvv hv
    simp [get_info_invalid store y m d hv', hv']

/-! ### Helper lemmas about the `%W` week-number convention -/

/-- January has no preceding months. -/
theorem daysBeforeMonth_one (y : Nat) : daysBeforeMonth y 1 = 0 := rfl

/-- The weekday of a date, in terms of its year offset and day-of-year. -/
theorem mondayWeekday_eq (d : Date) :
    mondayWeekday d = (daysBeforeYear d.year + dayOfYear d + 6) % 7 := by
  unfold mondayWeekday toOrdinal dayOfYear
  congr 1
  omega

/-- The weekday of January 1 is the year offset modulo 7. -/
theorem mondayWeekday_jan1 (y : Nat) :
    mondayWeekday ⟨y, 1, 1⟩ = daysBeforeYear y % 7 := by
  show (daysBeforeYear y + daysBeforeMonth y 1 + 1 + 6) % 7 = _
  rw [daysBeforeMonth_one]
  omega

/-- Week-0 characterization of `%W`: a date's week number is 0 exactly when
the date lies before the first Monday of its year (when January 1 is a
Monday, no date does). -/
theorem weekW_zero_iff (d : Date) (hd : 1 ≤ d.day) :
    weekW d = 0 ↔ dayOfYear d ≤ (7 - mondayWeekday ⟨d.year, 1, 1⟩) % 7 := by
  have h1 := mondayWeekday_eq d
  have h2 := mondayWeekday_jan1 d.year
  have hdoy : 1 ≤ dayOfYear d := by
    unfold dayOfYear
    omega
  unfold weekW
  rw [h1, h2]
  omega

/-- Monday-start property of `%W`: moving to the next day of the same year
increments the week number exactly when that next day is a Monday. -/
theorem weekW_step (d e : Date) (hy : d.year = e.year) (hd : 1 ≤ d.day)
    (hdoy : dayOfYear e = dayOfYear d + 1) :
    (mondayWeekday e = 0 → weekW e = weekW d + 1)
    ∧ (mondayWeekday e ≠ 0 → weekW e = weekW d) := by
  have h1 := mondayWeekday_eq d
  have h2 := mondayWeekday_eq e
  have hdoy1 : 1 ≤ dayOfYear d := by
    unfold dayOfYear
    omega
  unfold weekW
  rw [h1, h2, ← hy, hdoy]
  omega

/-- The weekday name is "Monday" exactly when the Monday-based weekday
index is 0, and the index is always in range. -/
theorem weekdayName_monday (d : Date) :
    mondayWeekday d < 7 ∧ (weekdayName d = "Monday" ↔ mondayWeekday d = 0) := by
  refine ⟨Nat.mod_lt _ (by omega), ?_⟩
  unfold weekdayName weekdayNames
  have h7 : mondayWeekday d < 7 := Nat.mod_lt _ (by omega)
  interval_cases h : mondayWeekday d <;> simp

/-- The month listing on a covered year with no start-month match returns
the explicit marker. -/
theorem holidays_list_some_empty (store : Store) (y mo : Nat)
    (data : List HolidayRecord) (hs : store y = some data)
    (hempty : data.filter (fun h => h.start.month == mo) = []) :
    holidays_list store y mo
      = (200, Json.obj [("response",
          Json.str "No holidays found for this month")]) := by
  simp [holidays_list, hs, hempty]

/-- The month listing on a covered year with at least one start-month
match returns the matching records. -/
theorem holidays_list_some_nonempty (store : Store) (y mo : Nat)
    (data : List HolidayRecord) (hs : store y = some data)
    (hne : data.filter (fun h => h.start.month == mo) ≠ []) :
    holidays_list store y mo
      = (200, Json.obj [("holidays", Json.arr
          ((data.filter (fun h => h.start.month == mo)).map recordJson))]) := by
  have hE : (data.filter (fun h => h.start.month == mo)).isEmpty = false := by
    cases hF : data.filter (fun h => h.start.month == mo) with
    | nil => exact absurd hF hne
    | cons a l => rfl
  simp [holidays_list, hs, hE]

/-! ### Claim theorems -/

/-- C1: for a valid date in a covered year, `get_holiday_info` scans the
year's records in dataset order and returns the holiday outcome of the
first record whose inclusive range contains the date (its `uid` is the
returned `id`); when no record's range contains the date the outcome is
the not-a-holiday body with status 200. -/
theorem C1_resolve_first_match (store : Store) (y m d : Nat)
    (hv : isValidDate y m d = true) (data : List HolidayRecord)
    (hs : store y = some data) :
    ((∀ h ∈ data, containsDate h ⟨y, m, d⟩ = false) →
        get_holiday_info store y m d
          = (some ⟨y, m, d⟩, 200, Json.obj [("is_holiday", Json.bool false)]))
    ∧ (∀ pre h post, data = pre ++ h :: post →
        (∀ h' ∈ pre, containsDate h' ⟨y, m, d⟩ = false) →
        containsDate h ⟨y, m, d⟩ = true →
        get_holiday_info store y m d
            = (some ⟨y, m, d⟩, 200, holidayDetail ⟨y, m, d⟩ h)
          ∧ (holidayDetail ⟨y, m, d⟩ h).getField "id"
              = some (Json.str h.uid)) := by
  constructor
  · exact fun hno => get_info_nomatch store y m d hv data hs hno
  · intro pre h post hdata hpre hh
    exact ⟨get_info_match store y m d hv pre h post (hdata ▸ hs) hpre hh, rfl⟩

/-- Witness for C1: in the sample store, January 1 2025 lies in both
records' ranges and resolution returns the first record `rec1`. -/
theorem C1_witness :
    get_holiday_info sampleStore 2025 1 1
        = (some ⟨2025, 1, 1⟩, 200, holidayDetail ⟨2025, 1, 1⟩ rec1)
    ∧ (holidayDetail ⟨2025, 1, 1⟩ rec1).getField "id"
        = some (Json.str rec1.uid) :=
  (C1_resolve_first_match sampleStore 2025 1 1 (by decide) [rec1, rec2]
      rfl).2 [] rec1 [rec2] rfl (by intro h' hmem; simp at hmem) (by decide)

/-- C2: for in-range components that do not form a real calendar date,
`get_holiday_info` returns the 400 invalid-date outcome regardless of the
store; the 404 year-unavailable outcome occurs exactly for a valid date in
a year with no dataset, so date validity is checked first. -/
theorem C2_invalid_before_missing (store : Store) (y m d : Nat)
    (hy : 2000 ≤ y ∧ y ≤ 3000) (hm : 1 ≤ m ∧ m ≤ 12)
    (hd : 1 ≤ d ∧ d ≤ 31) :
    (isValidDate y m d = false →
        get_holiday_info store y m d
          = (none, 400, Json.obj [("error", Json.str "invalid date")]))
    ∧ (isValidDate y m d = true → store y = none →
        get_holiday_info store y m d
          = (some ⟨y, m, d⟩, 404,
             Json.obj [("error", Json.str "requested year not available")]))
    ∧ ((get_holiday_info store y m d).2.1 = 404
        ↔ (isValidDate y m d = true ∧ store y = none)) :=
  ⟨fun hv => get_info_invalid store y m d hv,
   fun hv hn => get_info_missing store y m d hv hn,
   get_info_status_404 store y m d⟩

/-- Witness for C2: February 30 2050 is invalid even though 2050 has no
dataset, while January 1 2050 gets the 404 outcome. -/
theorem C2_witness :
    get_holiday_info sampleStore 2050 2 30
        = (none, 400, Json.obj [("error", Json.str "invalid date")])
    ∧ get_holiday_info sampleStore 2050 1 1
        = (some ⟨2050, 1, 1⟩, 404,
           Json.obj [("error", Json.str "requested year not available")]) :=
  ⟨(C2_invalid_before_missing sampleStore 2050 2 30 (by decide) (by decide)
      (by decide)).1 (by decide),
   (C2_invalid_before_missing sampleStore 2050 1 1 (by decide) (by decide)
      (by decide)).2.1 (by decide) rfl⟩

/-- C3: for a year with no dataset, the three endpoints apply three
distinct policies: the coverage check answers softly with
"data not available", the month listing fails with status 404, and the
year listing succeeds with status 200 and a descriptive response. -/
theorem C3_three_missing_year_policies (store : Store) (y : Nat)
    (hy : 2000 ≤ y ∧ y ≤ 3000) (hnone : store y = none) :
    api_coverage_year store y
        = Json.obj [("year", Json.nat y),
                    ("coverage", Json.str "data not available")]
    ∧ (∀ mo : Nat, holidays_list store y mo
        = (404, Json.obj [("detail",
            Json.str "Holiday data not available for the year")]))
    ∧ holidays_in_year store y
        = (200, Json.obj [("year", Json.nat y),
            ("response", Json.str "Data not available for this year.")]) := by
  refine ⟨?_, fun mo => ?_, ?_⟩ <;>
    simp [api_coverage_year, holidays_list, holidays_in_year, hnone]

/-- Witness for C3: year 2050 has no dataset in the sample store. -/
theorem C3_witness :
    api_coverage_year sampleStore 2050
        = Json.obj [("year", Json.nat 2050),
                    ("coverage", Json.str "data not available")]
    ∧ holidays_list sampleStore 2050 1
        = (404, Json.obj [("detail",
            Json.str "Holiday data not available for the year")])
    ∧ holidays_in_year sampleStore 2050
        = (200, Json.obj [("year", Json.nat 2050),
            ("response", Json.str "Data not available for this year.")]) := by
  have h := C3_three_missing_year_policies sampleStore 2050 (by decide) rfl
  exact ⟨h.1, h.2.1 1, h.2.2⟩

/-- C4: for a covered year, the month listing returns exactly the records
whose start date's month equals the queried month (a sublist of the
dataset, so in dataset order; range overlap plays no role), and when no
record's start month matches it returns the explicit no-holidays marker
instead of an empty list. -/
theorem C4_month_listing_by_start_month (store : Store) (y mo : Nat)
    (data : List HolidayRecord) (hs : store y = some data) :
    (data.filter (fun h => h.start.month == mo) = [] →
        holidays_list store y mo
          = (200, Json.obj [("response",
              Json.str "No holidays found for this month")]))
    ∧ (data.filter (fun h => h.start.month == mo) ≠ [] →
        holidays_list store y mo
          = (200, Json.obj [("holidays", Json.arr
              ((data.filter (fun h => h.start.month == mo)).map recordJson))]))
    ∧ (∀ h, h ∈ data.filter (fun h => h.start.month == mo)
          ↔ (h ∈ data ∧ h.start.month = mo))
    ∧ (data.filter (fun h => h.start.month == mo)).Sublist data := by
  refine ⟨fun hempty => holidays_list_some_empty store y mo data hs hempty,
          fun hne => holidays_list_some_nonempty store y mo data hs hne,
          ?_, List.filter_sublist data⟩
  intro h
  simp [List.mem_filter]

/-- Witness for C4: in the 2025 dataset both records start in January, so
month 1 lists them and month 3 yields the marker. -/
theorem C4_witness :
    holidays_list sampleStore 2025 1
        = (200, Json.obj [("holidays", Json.arr
            (([rec1, rec2].filter (fun h => h.start.month == 1)).map recordJson))])
    ∧ holidays_list sampleStore 2025 3
        = (200, Json.obj [("response",
            Json.str "No holidays found for this month")])
    ∧ rec1 ∈ [rec1, rec2].filter (fun h => h.start.month == (1 : Nat)) :=
  ⟨(C4_month_listing_by_start_month sampleStore 2025 1 [rec1, rec2] rfl).2.1
      (by decide),
   (C4_month_listing_by_start_month sampleStore 2025 3 [rec1, rec2] rfl).1
      (by decide),
   ((C4_month_listing_by_start_month sampleStore 2025 1 [rec1, rec2]
      rfl).2.2.1 rec1).mpr ⟨by simp, by decide⟩⟩

/-- C5: for a covered year, the year listing succeeds with status 200 and
maps every dataset record, exactly once and in dataset order, to the shape
with `uid`, `start`, `end`, `categories` copied and `summary` renamed to
`holiday`; index-for-index the output is the transform of the input. -/
theorem C5_year_listing_roundtrip (store : Store) (y : Nat)
    (data : List HolidayRecord) (hs : store y = some data) :
    holidays_in_year store y
        = (200, Json.obj [("year", Json.nat y),
            ("holidays", Json.arr (data.map yearItemJson))])
    ∧ (data.map yearItemJson).length = data.length
    ∧ (∀ h : HolidayRecord, yearItemJson h
        = Json.obj [("uid", Json.str h.uid),
                    ("holiday", Json.str h.summary),
                    ("start", Json.str (dateStr h.start)),
                    ("end", Json.str (dateStr h.«end»)),
                    ("categories", Json.arr (h.categories.map Json.str))])
    ∧ (∀ i : Nat, (data.map yearItemJson)[i]? = (data[i]?).map yearItemJson) := by
  refine ⟨by simp [holidays_in_year, hs], List.length_map _ _, fun h => rfl, ?_⟩
  intro i
  exact List.getElem?_map yearItemJson data i

/-- Witness for C5: the 2025 listing is the transform of the two-record
dataset in order. -/
theorem C5_witness :
    holidays_in_year sampleStore 2025
        = (200, Json.obj [("year", Json.nat 2025),
            ("holidays", Json.arr ([rec1, rec2].map yearItemJson))]) :=
  (C5_year_listing_roundtrip sampleStore 2025 [rec1, rec2] rfl).1

/-- C6: the coverage endpoint answers "ok" exactly when a dataset (even an
empty one) exists for the year, and "data not available" exactly when none
does; no record inspection is involved. -/
theorem C6_coverage_iff_dataset (store : Store) (y : Nat)
    (hy : 2000 ≤ y ∧ y ≤ 3000) :
    (api_coverage_year store y
        = Json.obj [("year", Json.nat y), ("coverage", Json.str "ok")]
      ↔ (store y).isSome = true)
    ∧ (api_coverage_year store y
        = Json.obj [("year", Json.nat y),
                    ("coverage", Json.str "data not available")]
      ↔ store y = none) := by
  cases hst : store y with
  | none => simp [api_coverage_year, hst]
  | some data => simp [api_coverage_year, hst]

/-- Witness for C6: covered 2025 answers "ok", uncovered 2050 answers
"data not available"; an all-empty store still answers "ok" for a year
mapped to an empty dataset. -/
theorem C6_witness :
    api_coverage_year sampleStore 2025
        = Json.obj [("year", Json.nat 2025), ("coverage", Json.str "ok")]
    ∧ api_coverage_year sampleStore 2050
        = Json.obj [("year", Json.nat 2050),
                    ("coverage", Json.str "data not available")]
    ∧ api_coverage_year (fun _ => some []) 2030
        = Json.obj [("year", Json.nat 2030), ("coverage", Json.str "ok")] :=
  ⟨(C6_coverage_iff_dataset sampleStore 2025 (by decide)).1.mpr rfl,
   (C6_coverage_iff_dataset sampleStore 2050 (by decide)).2.mpr rfl,
   (C6_coverage_iff_dataset (fun _ => some []) 2030 (by decide)).1.mpr rfl⟩

/-- C7: the strict-mode endpoint returns, on a valid non-holiday date in a
covered year, status 200 with the minimal date/false body; on a matched
date, the full detail body flattened with no wrapper; and on any error
outcome (status other than 200), the error detail inside a response
wrapper with the associated status. -/
theorem C7_strict_mode_shapes (store : Store) (y m d : Nat)
    (hv : isValidDate y m d = true) (data : List HolidayRecord)
    (hs : store y = some data) :
    ((∀ h ∈ data, containsDate h ⟨y, m, d⟩ = false) →
        check_holiday store y m d
          = (200, Json.obj [("date", Json.str (dateStr ⟨y, m, d⟩)),
                            ("response", Json.bool false)]))
    ∧ (∀ pre h post, data = pre ++ h :: post →
        (∀ h' ∈ pre, containsDate h' ⟨y, m, d⟩ = false) →
        containsDate h ⟨y, m, d⟩ = true →
        check_holiday store y m d = (200, holidayDetail ⟨y, m, d⟩ h))
    ∧ (∀ (store' : Store) (y' m' d' : Nat),
        (get_holiday_info store' y' m' d').2.1 ≠ 200 →
        check_holiday store' y' m' d'
          = ((get_holiday_info store' y' m' d').2.1,
             Json.obj [("response", (get_holiday_info store' y' m' d').2.2)])) := by
  refine ⟨?_, ?_, ?_⟩
  · intro hno
    have hg := get_info_nomatch store y m d hv data hs hno
    simp [check_holiday, hg, Json.getField, jsonFieldTrue, optDateJson, List.find?]
  · intro pre h post hdata hpre hh
    have hg := get_info_match store y m d hv pre h post (hdata ▸ hs) hpre hh
    have ht : jsonFieldTrue ((holidayDetail ⟨y, m, d⟩ h).getField "is_holiday")
        = true := rfl
    simp [check_holiday, hg, ht]
  · intro store' y' m' d' hne
    simp [check_holiday, hne]

/-- Witness for C7: January 10 2025 is no holiday (minimal body),
January 1 2025 matches `rec1` (flattened detail), and the uncovered year
2050 yields the wrapped 404 error. -/
theorem C7_witness :
    check_holiday sampleStore 2025 1 10
        = (200, Json.obj [("date", Json.str (dateStr ⟨2025, 1, 10⟩)),
                          ("response", Json.bool false)])
    ∧ check_holiday sampleStore 2025 1 1
        = (200, holidayDetail ⟨2025, 1, 1⟩ rec1)
    ∧ check_holiday sampleStore 2050 1 1
        = (404, Json.obj [("response",
            Json.obj [("error", Json.str "requested year not available")])]) := by
  have hc := C7_strict_mode_shapes sampleStore 2025 1 1 (by decide)
      [rec1, rec2] rfl
  refine ⟨?_, ?_, ?_⟩
  · exact (C7_strict_mode_shapes sampleStore 2025 1 10 (by decide)
      [rec1, rec2] rfl).1 (by decide)
  · exact hc.2.1 [] rec1 [rec2] rfl (by intro h' hmem; simp at hmem) (by decide)
  · exact hc.2.2 sampleStore 2050 1 1 (by decide)

/-- C8: the holiday outcome carries the derived weekday name, month name
and two-digit week number together with the matched record's fields; the
week number follows the `%W` convention, characterized here by: week 0 is
exactly the days before the first Monday of the year, the week number
increments precisely at Mondays, and the weekday indexing is
Monday-based. -/
theorem C8_holiday_outcome_derived_fields (store : Store) (y m d : Nat)
    (hv : isValidDate y m d = true) (pre : List HolidayRecord)
    (h : HolidayRecord) (post : List HolidayRecord)
    (hs : store y = some (pre ++ h :: post))
    (hpre : ∀ h' ∈ pre, containsDate h' ⟨y, m, d⟩ = false)
    (hh : containsDate h ⟨y, m, d⟩ = true) :
    ((get_holiday_info store y m d).2.2.getField "day"
        = some (Json.str (weekdayName ⟨y, m, d⟩)))
    ∧ ((get_holiday_info store y m d).2.2.getField "week"
        = some (Json.str (fmt2 (weekW ⟨y, m, d⟩))))
    ∧ ((get_holiday_info store y m d).2.2.getField "month"
        = some (Json.str (monthName m)))
    ∧ ((get_holiday_info store y m d).2.2.getField "id"
        = some (Json.str h.uid))
    ∧ ((get_holiday_info store y m d).2.2.getField "holiday"
        = some (Json.str h.summary))
    ∧ ((get_holiday_info store y m d).2.2.getField "categories"
        = some (Json.arr (h.categories.map Json.str)))
    ∧ ((get_holiday_info store y m d).2.2.getField "holiday_start"
        = some (Json.str (dateStr h.start)))
    ∧ ((get_holiday_info store y m d).2.2.getField "holiday_end"
        = some (Json.str (dateStr h.«end»)))
    ∧ (∀ d' : Date, 1 ≤ d'.day →
        (weekW d' = 0 ↔ dayOfYear d' ≤ (7 - mondayWeekday ⟨d'.year, 1, 1⟩) % 7))
    ∧ (∀ d' e' : Date, d'.year = e'.year → 1 ≤ d'.day →
        dayOfYear e' = dayOfYear d' + 1 →
        (mondayWeekday e' = 0 → weekW e' = weekW d' + 1)
        ∧ (mondayWeekday e' ≠ 0 → weekW e' = weekW d'))
    ∧ (∀ d' : Date, mondayWeekday d' < 7
        ∧ (weekdayName d' = "Monday" ↔ mondayWeekday d' = 0))
    ∧ fmt2 0 = "00" := by
  have hg := get_info_match store y m d hv pre h post hs hpre hh
  rw [hg]
  exact ⟨rfl, rfl, rfl, rfl, rfl, rfl, rfl, rfl,
         fun d' hd' => weekW_zero_iff d' hd',
         fun d' e' hy1 hd1 hdoy => weekW_step d' e' hy1 hd1 hdoy,
         fun d' => weekdayName_monday d', rfl⟩

/-- Witness for C8: the matched outcome for January 1 2025 (a Wednesday in
week 00) carries the derived fields; January 5 2025, the Sunday before the
first Monday, is in week 0 by the week-0 characterization. -/
theorem C8_witness :
    ((get_holiday_info sampleStore 2025 1 1).2.2.getField "day"
        = some (Json.str (weekdayName ⟨2025, 1, 1⟩)))
    ∧ ((get_holiday_info sampleStore 2025 1 1).2.2.getField "week"
        = some (Json.str (fmt2 (weekW ⟨2025, 1, 1⟩))))
    ∧ weekdayName ⟨2025, 1, 1⟩ = "Wednesday"
    ∧ fmt2 (weekW ⟨2025, 1, 1⟩) = "00"
    ∧ weekW ⟨2025, 1, 5⟩ = 0
    ∧ weekdayName ⟨2025, 1, 5⟩ = "Sunday"
    ∧ weekW ⟨2025, 1, 6⟩ = 1
    ∧ weekdayName ⟨2025, 1, 6⟩ = "Monday" := by
  have h := C8_holiday_outcome_derived_fields sampleStore 2025 1 1 (by decide)
      [] rec1 [rec2] rfl (by intro h' hmem; simp at hmem) (by decide)
  refine ⟨h.1, h.2.1, by decide, by decide, ?_, by decide, by decide, by decide⟩
  exact (h.2.2.2.2.2.2.2.2.1 ⟨2025, 1, 5⟩ (by decide)).mpr (by decide)

/-- C9: the verbose endpoint answers an invalid in-range date with status
400 and the body whose date field is JSON null (not an echo of the
components) and whose response is the invalid-date error object. -/
theorem C9_verbose_invalid_date_null (store : Store) (y m d : Nat)
    (hy : 2000 ≤ y ∧ y ≤ 3000) (hm : 1 ≤ m ∧ m ≤ 12) (hd : 1 ≤ d ∧ d ≤ 31)
    (hv : isValidDate y m d = false) :
    holiday_info store y m d
      = (400, Json.obj [("date", Json.null),
          ("response", Json.obj [("error", Json.str "invalid date")])]) := by
  have hg := get_info_invalid store y m d hv
  simp [holiday_info, hg, optDateJson]

/-- Witness for C9: February 30 2025 is in range component-wise but not a
real date. -/
theorem C9_witness :
    holiday_info sampleStore 2025 2 30
      = (400, Json.obj [("date", Json.null),
          ("response", Json.obj [("error", Json.str "invalid date")])]) :=
  C9_verbose_invalid_date_null sampleStore 2025 2 30 (by decide) (by decide)
    (by decide) (by decide)

/-- C10: the month listing returns the matched records verbatim as stored
(fields `uid`, `summary`, `start`, `end`, `categories`, in dataset order),
without the `uid`→`id` / `summary`→`holiday` renaming and without any of
the derived fields of the other endpoints. -/
theorem C10_month_listing_verbatim (store : Store) (y mo : Nat)
    (data : List HolidayRecord) (hs : store y = some data)
    (hne : data.filter (fun h => h.start.month == mo) ≠ []) :
    holidays_list store y mo
        = (200, Json.obj [("holidays", Json.arr
            ((data.filter (fun h => h.start.month == mo)).map recordJson))])
    ∧ (∀ h : HolidayRecord,
        (recordJson h).getField "uid" = some (Json.str h.uid)
        ∧ (recordJson h).getField "summary" = some (Json.str h.summary)
        ∧ (recordJson h).getField "start" = some (Json.str (dateStr h.start))
        ∧ (recordJson h).getField "end" = some (Json.str (dateStr h.«end»))
        ∧ (recordJson h).getField "categories"
            = some (Json.arr (h.categories.map Json.str))
        ∧ (recordJson h).getField "id" = none
        ∧ (recordJson h).getField "holiday" = none
        ∧ (recordJson h).getField "is_holiday" = none
        ∧ (recordJson h).getField "day" = none
        ∧ (recordJson h).getField "week" = none
        ∧ (recordJson h).getField "month" = none) :=
  ⟨holidays_list_some_nonempty store y mo data hs hne,
   fun h => ⟨rfl, rfl, rfl, rfl, rfl, rfl, rfl, rfl, rfl, rfl, rfl⟩⟩

/-- Witness for C10: the January 2025 listing returns both records in
their stored shape. -/
theorem C10_witness :
    holidays_list sampleStore 2025 1
        = (200, Json.obj [("holidays", Json.arr
            (([rec1, rec2].filter (fun h => h.start.month == 1)).map recordJson))])
    ∧ (recordJson rec1).getField "uid" = some (Json.str rec1.uid)
    ∧ (recordJson rec1).getField "holiday" = none := by
  have h := C10_month_listing_verbatim sampleStore 2025 1 [rec1, rec2] rfl
      (by decide)
  exact ⟨h.1, (h.2 rec1).1, (h.2 rec1).2.2.2.2.2.2.1⟩

end Holidays
